import Mathlib

/-!
Shallow embedding of the conveyor production controller (`src/bbb.py`).

The embedded operations are the Flask handlers that carry the run logic:
`start_production` (bbb.py:231), `restart_conveyor` (bbb.py:298),
`check_production_status` (bbb.py:373, one poll = one tick) and
`reset_production` (bbb.py:677).  The session record `production_data`
becomes `ProductionData`; the seven PLC holding registers become `Regs`.

Modelling conventions:
* Machine registers hold small non-negative values; they are modelled as
  `Nat` (no arithmetic ever approaches 2^16 in this program).
* Wall-clock time is a `Nat` parameter `now`; the QR scan window compares
  `now - sensor_check_start` against 5, exactly as bbb.py:496-498 compares
  elapsed seconds against 5.
* Every Modbus read/write (`read_plc_memory` / `write_plc_memory`,
  bbb.py:57-93) may raise.  A tick takes `fail_at : Option Nat`: bus
  operations are numbered in execution order and operation `i` raises iff
  `fail_at = some i` (after the first raise the handler aborts, so at most
  one failure is ever observable).  `fail_at = none` is a failure-free call.
* Exceptions are caught by each handler's `try/except`, which returns an
  HTTP 500 (`RespStatus.error`).  Flask persists the (client-cookie) session
  into that response only if a `session['production_data'] = ...` assignment
  ran earlier in the request; because `production` aliases the stored dict,
  the persisted value is then the dict's content at abort time.  The model
  threads the original record, the current record and a `modified` flag and
  commits accordingly (`abort_result`).
* QR codes are opaque tokens, modelled as `Nat`; `generate_qr_code` is an
  injected supply (`gen : Nat → Nat` at start, a fresh token at restart).
* Fields of `production_data` that no embedded operation ever branches on
  (the descriptor labels `biscuit_type`/`brand`/`production_type` and the
  `start_time`/`end_time` timestamps) are omitted.  The structural
  validation of bbb.py:390-406 is vacuous in the typed model.
* `production.get('queued_box')` defaults to a falsy value when the key is
  absent (as after `start_production`, which does not set it); the model
  uses a `Bool` field initialised to `false`.
-/

set_option maxHeartbeats 1000000

namespace Conveyor

/-- Run status strings stored in `production_data['status']`. -/
inductive RunStatus
  | waiting_for_conveyor
  | running
  | completed
  | stopped
  deriving DecidableEq, Repr

/-- The `status` field of the JSON answer of one `/check_production_status`
poll; `error` is the HTTP 500 branch (bbb.py:590-595). -/
inductive RespStatus
  | not_started
  | waiting_for_conveyor
  | running
  | accepted
  | stopped
  | completed
  | error
  deriving DecidableEq, Repr

/-- The session record `production_data` (bbb.py:264-279). -/
structure ProductionData where
  status : RunStatus
  quantity : Nat
  qr_codes : List Nat
  current_index : Nat
  accepted_boxes : Nat
  rejected_boxes : Nat
  waiting_for_proximity_1 : Bool
  waiting_for_proximity_2 : Bool
  waiting_for_qr : Bool
  queued_box : Bool
  sensor_check_start : Option Nat
  deriving DecidableEq, Repr

/-- The seven PLC holding registers (bbb.py:35-41). -/
structure Regs where
  conveyor_control : Nat
  proximity_1 : Nat
  proximity_2 : Nat
  qr_scanner : Nat
  accepted_boxes : Nat
  production_complete : Nat
  box_status_indicator : Nat
  deriving DecidableEq, Repr

/-- Result of one poll of `/check_production_status`: the persisted session
record, the register file, the reported status, and whether a print of the
current code was requested (the call at bbb.py:467). -/
structure TickResult where
  prod : ProductionData
  regs : Regs
  resp : RespStatus
  print_requested : Bool
  deriving DecidableEq, Repr

/-- Bus operation `i` of the current request raises iff `fail_at = some i`. -/
def bus_fails : Option Nat → Nat → Bool
  | none, _ => false
  | some j, i => j == i

@[simp] theorem bus_fails_none (i : Nat) : bus_fails none i = false := rfl

/-- The tick aborted by an exception: HTTP 500, and the session cookie keeps
the original record unless a session assignment had already run. -/
def abort_result (orig cur : ProductionData) (modified : Bool) (regs : Regs)
    (print_req : Bool) : TickResult :=
  { prod := if modified then cur else orig
    regs := regs
    resp := RespStatus.error
    print_requested := print_req }

/-- Tail of the accept branch (bbb.py:525-532): the session is saved, then
the response snapshot indexes `qr_codes[current_index]` with the already
advanced index; an out-of-range index raises after the save. -/
def accept_finish (orig pB : ProductionData) (regs : Regs)
    (print_req : Bool) : TickResult :=
  match pB.qr_codes[pB.current_index]? with
  | none => abort_result orig pB true regs print_req
  | some _ =>
      { prod := pB, regs := regs, resp := RespStatus.accepted
        print_requested := print_req }

/-- The QR-scan section of a running tick (bbb.py:495-558).  `p_cur` is the
record after the print / queued-box / proximity-2 steps of the same tick,
`modified` records whether a session assignment already ran, `op` is the
index of the next bus operation. -/
def scan_step (orig p_cur : ProductionData) (regs : Regs) (modified : Bool)
    (op : Nat) (print_req qr_scan : Bool) (now : Nat)
    (fail_at : Option Nat) : TickResult :=
  if p_cur.waiting_for_qr then
    match p_cur.sensor_check_start with
    | none =>
        -- bbb.py:496: datetime.fromisoformat(None) raises
        abort_result orig p_cur modified regs print_req
    | some t0 =>
        let elapsed := now - t0
        if qr_scan then
          -- box accepted (bbb.py:500-532)
          if bus_fails fail_at op then
            abort_result orig p_cur modified regs print_req
          else
          let a := regs.accepted_boxes + 1   -- bbb.py:502
          if bus_fails fail_at (op + 1) then
            abort_result orig p_cur modified regs print_req
          else
          let r1 := { regs with accepted_boxes := a }   -- bbb.py:503
          if bus_fails fail_at (op + 2) then
            abort_result orig p_cur modified r1 print_req
          else
          let r2 := { r1 with box_status_indicator := 1 }   -- bbb.py:504
          if bus_fails fail_at (op + 3) then
            abort_result orig p_cur modified r2 print_req
          else
          let r3 := { r2 with qr_scanner := 0 }   -- bbb.py:505
          -- bbb.py:507-512: note this update already clears queued_box
          let pA := { p_cur with
            accepted_boxes := a
            current_index := p_cur.current_index + 1
            waiting_for_qr := false
            queued_box := false }
          -- bbb.py:515-523: the check reads the flag cleared just above
          if pA.queued_box then
            let pB := { pA with
              waiting_for_proximity_1 := false
              waiting_for_proximity_2 := true }
            if bus_fails fail_at (op + 4) then
              abort_result orig pB modified r3 print_req
            else
            accept_finish orig pB { r3 with proximity_1 := 0 } print_req
          else
            accept_finish orig { pA with waiting_for_proximity_1 := true }
              r3 print_req
        else if 5 ≤ elapsed then
          -- box rejected (bbb.py:534-550); the record is mutated in place
          -- before the two writes, the session assignment comes after them
          let pR := { p_cur with
            rejected_boxes := p_cur.rejected_boxes + 1
            status := RunStatus.stopped
            queued_box := false }
          if bus_fails fail_at op then
            abort_result orig pR modified regs print_req
          else
          let r1 := { regs with box_status_indicator := 2 }   -- bbb.py:541
          if bus_fails fail_at (op + 1) then
            abort_result orig pR modified r1 print_req
          else
          let r2 := { r1 with conveyor_control := 0 }   -- bbb.py:542
          { prod := pR, regs := r2, resp := RespStatus.stopped
            print_requested := print_req }
        else
          -- still waiting (bbb.py:551-558): snapshot indexes the code list
          match p_cur.qr_codes[p_cur.current_index]? with
          | none => abort_result orig p_cur modified regs print_req
          | some _ =>
              { prod := p_cur, regs := regs, resp := RespStatus.running
                print_requested := print_req }
  else
    { prod := p_cur, regs := regs, resp := RespStatus.running
      print_requested := print_req }

/-- Queued-box latch and proximity-2 handling of a running tick
(bbb.py:477-492), then the scan section.  `p_cur` is the record after the
print step of the same tick. -/
def sensor_step (orig p_cur : ProductionData) (regs : Regs) (modified : Bool)
    (op : Nat) (print_req prox1 prox2 qr_scan : Bool) (now : Nat)
    (fail_at : Option Nat) : TickResult :=
  let has_queued := prox1 && p_cur.waiting_for_qr   -- bbb.py:478
  if has_queued && !p_cur.queued_box then
    -- bbb.py:479-481: latch, session saved
    scan_step orig { p_cur with queued_box := true } regs true op
      print_req qr_scan now fail_at
  else if p_cur.waiting_for_proximity_2 && prox2 then
    -- bbb.py:484-492: session saved, then proximity 2 cleared
    let pB := { p_cur with
      waiting_for_proximity_2 := false
      waiting_for_qr := true
      sensor_check_start := some now }
    if bus_fails fail_at op then
      abort_result orig pB true regs print_req
    else
    scan_step orig pB { regs with proximity_2 := 0 } true (op + 1)
      print_req qr_scan now fail_at
  else
    scan_step orig p_cur regs modified op print_req qr_scan now fail_at

/-- One poll of `/check_production_status` (bbb.py:373-595) on an existing
session record `p`.  `now` is the wall clock, `print_ok` the result of the
printer call (bbb.py:467), `fail_at` the bus-failure injection. -/
def check_production_status (p : ProductionData) (regs : Regs) (now : Nat)
    (print_ok : Bool) (fail_at : Option Nat) : TickResult :=
  -- bus op 0: conveyor_status = read_plc_memory(CONVEYOR...) (bbb.py:387)
  if bus_fails fail_at 0 then abort_result p p false regs false else
  match p.status with
  | RunStatus.waiting_for_conveyor =>
      -- bbb.py:409-435
      if regs.conveyor_control == 5 then
        -- bus ops 1-4: clear the sensor and indicator registers (412-415)
        if bus_fails fail_at 1 then abort_result p p false regs false else
        let r1 := { regs with proximity_1 := 0 }
        if bus_fails fail_at 2 then abort_result p p false r1 false else
        let r2 := { r1 with proximity_2 := 0 }
        if bus_fails fail_at 3 then abort_result p p false r2 false else
        let r3 := { r2 with qr_scanner := 0 }
        if bus_fails fail_at 4 then abort_result p p false r3 false else
        let r4 := { r3 with box_status_indicator := 0 }
        let p1 := { p with
          status := RunStatus.running
          waiting_for_proximity_1 := true
          queued_box := false }
        -- session saved (423); the response indexes qr_codes (427)
        match p1.qr_codes[p1.current_index]? with
        | none => abort_result p p1 true r4 false
        | some _ =>
            { prod := p1, regs := r4, resp := RespStatus.running
              print_requested := false }
      else
        { prod := p, regs := regs, resp := RespStatus.waiting_for_conveyor
          print_requested := false }
  | RunStatus.running =>
      if p.quantity ≤ p.current_index then
        -- completion (bbb.py:439-457); record mutated before the writes,
        -- session assignment only after both writes succeed
        let p1 := { p with
          status := RunStatus.completed
          waiting_for_proximity_1 := false
          waiting_for_proximity_2 := false
          waiting_for_qr := false }
        if bus_fails fail_at 1 then abort_result p p1 false regs false else
        let r1 := { regs with production_complete := 1 }   -- bbb.py:447
        if bus_fails fail_at 2 then abort_result p p1 false r1 false else
        let r2 := { r1 with conveyor_control := 0 }   -- bbb.py:448
        { prod := p1, regs := r2, resp := RespStatus.completed
          print_requested := false }
      else
        -- bus ops 1-3: sensor reads (bbb.py:460-462)
        if bus_fails fail_at 1 then abort_result p p false regs false else
        if bus_fails fail_at 2 then abort_result p p false regs false else
        if bus_fails fail_at 3 then abort_result p p false regs false else
        let prox1 := regs.proximity_1 == 1
        let prox2 := regs.proximity_2 == 1
        let qr_scan := regs.qr_scanner == 1
        -- automatic printing (bbb.py:465-475)
        let print_req :=
          p.waiting_for_proximity_1 && prox1 && !p.waiting_for_qr
        if print_req && print_ok then
          -- bbb.py:468-470: sub-state advanced and session saved, THEN
          -- bus op 4 clears proximity 1 (473)
          let pA := { p with
            waiting_for_proximity_1 := false
            waiting_for_proximity_2 := true }
          if bus_fails fail_at 4 then
            abort_result p pA true regs print_req
          else
          sensor_step p pA { regs with proximity_1 := 0 } true 5
            print_req prox1 prox2 qr_scan now fail_at
        else
          sensor_step p p regs false 4
            print_req prox1 prox2 qr_scan now fail_at
  | RunStatus.completed =>
      { prod := p, regs := regs, resp := RespStatus.completed
        print_requested := false }
  | RunStatus.stopped =>
      { prod := p, regs := regs, resp := RespStatus.stopped
        print_requested := false }

/-- Outcome of one of the mutation endpoints `start_production`,
`restart_conveyor`, `reset_production`: the persisted session (possibly
unchanged), the register file, and whether the request returned 200. -/
structure ApiResult where
  sess : Option ProductionData
  regs : Regs
  ok : Bool
  deriving DecidableEq, Repr

/-- The production type selector of `start_production` (bbb.py:242-247). -/
inductive ProductionType
  | P1
  | P2
  | custom
  deriving DecidableEq, Repr

/-- `/start_production` (bbb.py:231-296).  `custom_quantity` is the parsed
integer of the request body; `gen` supplies the code token for each ordinal
(bbb.py:252-261 generates all codes before anything is stored).  Note the
handler never inspects the existing session: an active run is overwritten.
Bus ops 0-5 are `reset_plc_memory` (bbb.py:141-146), op 6 zeroes the
accepted counter (283), op 7 starts the conveyor (286); the session was
assigned at bbb.py:264 before any of them, so a bus failure aborts with the
new record already persisted. -/
def start_production (sess : Option ProductionData) (regs : Regs)
    (ptype : ProductionType) (custom_quantity : Int) (gen : Nat → Nat)
    (fail_at : Option Nat) : ApiResult :=
  let qv : Option Nat :=
    match ptype with
    | ProductionType.P1 => some 10
    | ProductionType.P2 => some 20
    | ProductionType.custom =>
        if custom_quantity ≤ 0 then none else some custom_quantity.toNat
  match qv with
  | none => { sess := sess, regs := regs, ok := false }   -- bbb.py:248-249
  | some quantity =>
      let codes := (List.range quantity).map gen
      let p : ProductionData :=
        { status := RunStatus.waiting_for_conveyor
          quantity := quantity
          qr_codes := codes
          current_index := 0
          accepted_boxes := 0
          rejected_boxes := 0
          waiting_for_proximity_1 := true
          waiting_for_proximity_2 := false
          waiting_for_qr := false
          queued_box := false
          sensor_check_start := none }
      if bus_fails fail_at 0 then { sess := some p, regs := regs, ok := false } else
      let r0 := { regs with conveyor_control := 0 }
      if bus_fails fail_at 1 then { sess := some p, regs := r0, ok := false } else
      let r1 := { r0 with proximity_1 := 0 }
      if bus_fails fail_at 2 then { sess := some p, regs := r1, ok := false } else
      let r2 := { r1 with proximity_2 := 0 }
      if bus_fails fail_at 3 then { sess := some p, regs := r2, ok := false } else
      let r3 := { r2 with qr_scanner := 0 }
      if bus_fails fail_at 4 then { sess := some p, regs := r3, ok := false } else
      let r4 := { r3 with production_complete := 0 }
      if bus_fails fail_at 5 then { sess := some p, regs := r4, ok := false } else
      let r5 := { r4 with box_status_indicator := 0 }
      if bus_fails fail_at 6 then { sess := some p, regs := r5, ok := false } else
      let r6 := { r5 with accepted_boxes := 0 }   -- bbb.py:283
      if bus_fails fail_at 7 then { sess := some p, regs := r6, ok := false } else
      let r7 := { r6 with conveyor_control := 1 }   -- bbb.py:286
      -- bbb.py:288-292: the answer carries qr_codes[0]
      match codes[0]? with
      | none => { sess := some p, regs := r7, ok := false }
      | some _ => { sess := some p, regs := r7, ok := true }

/-- `/restart_conveyor` (bbb.py:298-345).  `new_code` is the regenerated
token for the current box.  The list cell is replaced in place at
bbb.py:318 before any bus write, but as no session assignment has run yet a
mid-sequence bus failure leaves the persisted record unchanged; the explicit
assignment is at bbb.py:335.  Bus ops 0-3 clear the transient sensor and
indicator registers (321-324), op 4 restarts the conveyor (327). -/
def restart_conveyor (sess : Option ProductionData) (regs : Regs)
    (new_code : Nat) (fail_at : Option Nat) : ApiResult :=
  match sess with
  | none => { sess := none, regs := regs, ok := false }   -- bbb.py:301-302
  | some p =>
      if p.status ≠ RunStatus.stopped then
        { sess := some p, regs := regs, ok := false }     -- bbb.py:307-308
      else if p.current_index < p.qr_codes.length then
        let codes := p.qr_codes.set p.current_index new_code   -- bbb.py:318
        if bus_fails fail_at 0 then { sess := some p, regs := regs, ok := false } else
        let r0 := { regs with proximity_1 := 0 }
        if bus_fails fail_at 1 then { sess := some p, regs := r0, ok := false } else
        let r1 := { r0 with proximity_2 := 0 }
        if bus_fails fail_at 2 then { sess := some p, regs := r1, ok := false } else
        let r2 := { r1 with qr_scanner := 0 }
        if bus_fails fail_at 3 then { sess := some p, regs := r2, ok := false } else
        let r3 := { r2 with box_status_indicator := 0 }
        if bus_fails fail_at 4 then { sess := some p, regs := r3, ok := false } else
        let r4 := { r3 with conveyor_control := 1 }   -- bbb.py:327
        let p1 := { p with
          qr_codes := codes
          status := RunStatus.running
          waiting_for_proximity_1 := true
          waiting_for_proximity_2 := false
          waiting_for_qr := false
          sensor_check_start := none }
        -- session assigned (335); the answer indexes the code list (339)
        match codes[p1.current_index]? with
        | none => { sess := some p1, regs := r4, ok := false }
        | some _ => { sess := some p1, regs := r4, ok := true }
      else
        -- bbb.py:318 raises IndexError before any write or assignment
        { sess := some p, regs := regs, ok := false }

/-- `/reset_production` (bbb.py:677-690): `reset_plc_memory` (139-146)
zeroes six registers — the accepted-boxes register is not among them — and
then the session record is dropped. -/
def reset_production (sess : Option ProductionData) (regs : Regs)
    (fail_at : Option Nat) : ApiResult :=
  if bus_fails fail_at 0 then { sess := sess, regs := regs, ok := false } else
  let r0 := { regs with conveyor_control := 0 }
  if bus_fails fail_at 1 then { sess := sess, regs := r0, ok := false } else
  let r1 := { r0 with proximity_1 := 0 }
  if bus_fails fail_at 2 then { sess := sess, regs := r1, ok := false } else
  let r2 := { r1 with proximity_2 := 0 }
  if bus_fails fail_at 3 then { sess := sess, regs := r2, ok := false } else
  let r3 := { r2 with qr_scanner := 0 }
  if bus_fails fail_at 4 then { sess := sess, regs := r3, ok := false } else
  let r4 := { r3 with production_complete := 0 }
  if bus_fails fail_at 5 then { sess := sess, regs := r4, ok := false } else
  let r5 := { r4 with box_status_indicator := 0 }
  { sess := none, regs := r5, ok := true }

/-- States of the whole system (session record and register file) reachable
by FAILURE-FREE API calls and polls (`fail_at = none` throughout), with the
physical environment free to drive the conveyor-acknowledgment, sensor and
indicator registers between requests (the indicator is also auto-cleared by
the sweep thread, bbb.py:148-163).  The accepted-count and complete-flag
registers are written by this program only.  This relation deliberately
excludes the bus-failure paths; `ReachF` below is the closure that admits
them, and the two relations settle different halves of the counts
property. -/
inductive Reach : Option ProductionData × Regs → Prop
  | init (regs : Regs) : Reach (none, regs)
  | step_poll (p : ProductionData) (regs : Regs) (now : Nat) (print_ok : Bool)
      (h : Reach (some p, regs)) :
      Reach (some (check_production_status p regs now print_ok none).prod,
        (check_production_status p regs now print_ok none).regs)
  | step_start (sess : Option ProductionData) (regs : Regs)
      (ptype : ProductionType) (cq : Int) (gen : Nat → Nat)
      (h : Reach (sess, regs)) :
      Reach ((start_production sess regs ptype cq gen none).sess,
        (start_production sess regs ptype cq gen none).regs)
  | step_restart (sess : Option ProductionData) (regs : Regs) (c : Nat)
      (h : Reach (sess, regs)) :
      Reach ((restart_conveyor sess regs c none).sess,
        (restart_conveyor sess regs c none).regs)
  | step_reset (sess : Option ProductionData) (regs : Regs)
      (h : Reach (sess, regs)) :
      Reach ((reset_production sess regs none).sess,
        (reset_production sess regs none).regs)
  | step_env (sess : Option ProductionData) (regs : Regs)
      (c q1 q2 sc ind : Nat) (h : Reach (sess, regs)) :
      Reach (sess, { regs with
        conveyor_control := c
        proximity_1 := q1
        proximity_2 := q2
        qr_scanner := sc
        box_status_indicator := ind })

/-- States reachable when every request may also suffer an injected bus
failure (`fail_at` arbitrary): the program's real failure paths, in which a
raise mid-request leaves whatever the request had already persisted
(registers written so far, session content once an assignment ran).
Extends `Reach` — a `Reach` derivation is a `ReachF` derivation with
`fail_at = none` at every step. -/
inductive ReachF : Option ProductionData × Regs → Prop
  | init (regs : Regs) : ReachF (none, regs)
  | step_poll (p : ProductionData) (regs : Regs) (now : Nat) (print_ok : Bool)
      (fail_at : Option Nat) (h : ReachF (some p, regs)) :
      ReachF (some (check_production_status p regs now print_ok fail_at).prod,
        (check_production_status p regs now print_ok fail_at).regs)
  | step_start (sess : Option ProductionData) (regs : Regs)
      (ptype : ProductionType) (cq : Int) (gen : Nat → Nat)
      (fail_at : Option Nat) (h : ReachF (sess, regs)) :
      ReachF ((start_production sess regs ptype cq gen fail_at).sess,
        (start_production sess regs ptype cq gen fail_at).regs)
  | step_restart (sess : Option ProductionData) (regs : Regs) (c : Nat)
      (fail_at : Option Nat) (h : ReachF (sess, regs)) :
      ReachF ((restart_conveyor sess regs c fail_at).sess,
        (restart_conveyor sess regs c fail_at).regs)
  | step_reset (sess : Option ProductionData) (regs : Regs)
      (fail_at : Option Nat) (h : ReachF (sess, regs)) :
      ReachF ((reset_production sess regs fail_at).sess,
        (reset_production sess regs fail_at).regs)
  | step_env (sess : Option ProductionData) (regs : Regs)
      (c q1 q2 sc ind : Nat) (h : ReachF (sess, regs)) :
      ReachF (sess, { regs with
        conveyor_control := c
        proximity_1 := q1
        proximity_2 := q2
        qr_scanner := sc
        box_status_indicator := ind })

/-! ### Branch characterizations of a failure-free poll -/

theorem accept_finish_prod (orig pB : ProductionData) (regs : Regs)
    (pr : Bool) : (accept_finish orig pB regs pr).prod = pB := by
  unfold accept_finish
  cases pB.qr_codes[pB.current_index]? <;> simp [abort_result]

theorem accept_finish_regs (orig pB : ProductionData) (regs : Regs)
    (pr : Bool) : (accept_finish orig pB regs pr).regs = regs := by
  unfold accept_finish
  cases pB.qr_codes[pB.current_index]? <;> simp [abort_result]

/-- Failure-free accept branch (bbb.py:500-532): the dead queued-box check
reduces away and the next sub-state is always `AwaitingProximity1`. -/
theorem scan_step_accept (orig p_cur : ProductionData) (regs : Regs)
    (modified : Bool) (op : Nat) (pr : Bool) (now t0 : Nat)
    (hqr : p_cur.waiting_for_qr = true)
    (hss : p_cur.sensor_check_start = some t0) :
    scan_step orig p_cur regs modified op pr true now none =
      accept_finish orig
        { p_cur with
          accepted_boxes := regs.accepted_boxes + 1
          current_index := p_cur.current_index + 1
          waiting_for_qr := false
          queued_box := false
          waiting_for_proximity_1 := true }
        { regs with
          accepted_boxes := regs.accepted_boxes + 1
          box_status_indicator := 1
          qr_scanner := 0 } pr := by
  simp [scan_step, hqr, hss]

/-- Failure-free reject branch (bbb.py:534-550). -/
theorem scan_step_reject (orig p_cur : ProductionData) (regs : Regs)
    (modified : Bool) (op : Nat) (pr : Bool) (now t0 : Nat)
    (hqr : p_cur.waiting_for_qr = true)
    (hss : p_cur.sensor_check_start = some t0)
    (h5 : 5 ≤ now - t0) :
    scan_step orig p_cur regs modified op pr false now none =
      { prod := { p_cur with
          rejected_boxes := p_cur.rejected_boxes + 1
          status := RunStatus.stopped
          queued_box := false }
        regs := { regs with
          box_status_indicator := 2
          conveyor_control := 0 }
        resp := RespStatus.stopped
        print_requested := pr } := by
  simp [scan_step, hqr, hss, h5]

/-- bbb.py:477-492 when the current box is awaiting its scan
(`waiting_for_proximity_2` false): the only effect is the queued-box
latch. -/
theorem sensor_step_awaiting_scan (orig p_cur : ProductionData) (regs : Regs)
    (modified : Bool) (op : Nat) (pr prox1 prox2 qs : Bool) (now : Nat)
    (hqr : p_cur.waiting_for_qr = true)
    (hw2 : p_cur.waiting_for_proximity_2 = false) :
    sensor_step orig p_cur regs modified op pr prox1 prox2 qs now none =
      scan_step orig { p_cur with queued_box := p_cur.queued_box || prox1 }
        regs (modified || (prox1 && !p_cur.queued_box)) op pr qs now none := by
  obtain ⟨st, q, codes, ci, ab, rb, w1, w2, wq, qb, ss⟩ := p_cur
  dsimp only at hqr hw2
  subst hqr hw2
  cases prox1 <;> cases qb <;> simp [sensor_step]

/-- A failure-free running poll whose box is awaiting its scan skips the
print step (bbb.py:465 requires `not waiting_for_qr`). -/
theorem check_running_awaiting_scan (p : ProductionData) (regs : Regs)
    (now : Nat) (print_ok : Bool)
    (hst : p.status = RunStatus.running)
    (hlt : p.current_index < p.quantity)
    (hqr : p.waiting_for_qr = true) :
    check_production_status p regs now print_ok none =
      sensor_step p p regs false 4 false (regs.proximity_1 == 1)
        (regs.proximity_2 == 1) (regs.qr_scanner == 1) now none := by
  have hnle : ¬ p.quantity ≤ p.current_index := by omega
  simp [check_production_status, hst, hnle, hqr]

/-- Completion detection (bbb.py:439-457) on a failure-free poll. -/
theorem check_completion (p : ProductionData) (regs : Regs) (now : Nat)
    (print_ok : Bool)
    (hst : p.status = RunStatus.running)
    (hge : p.quantity ≤ p.current_index) :
    check_production_status p regs now print_ok none =
      { prod := { p with
          status := RunStatus.completed
          waiting_for_proximity_1 := false
          waiting_for_proximity_2 := false
          waiting_for_qr := false }
        regs := { regs with
          production_complete := 1
          conveyor_control := 0 }
        resp := RespStatus.completed
        print_requested := false } := by
  simp [check_production_status, hst, hge]

/-- bbb.py:529 raises `IndexError` when the advanced index reaches the end
of the code list; the session was already saved at bbb.py:525. -/
theorem accept_finish_oob (orig pB : ProductionData) (regs : Regs)
    (pr : Bool) (h : pB.qr_codes.length ≤ pB.current_index) :
    accept_finish orig pB regs pr = abort_result orig pB true regs pr := by
  unfold accept_finish
  rw [List.getElem?_eq_none h]

/-! ### C2 -/

/-- C2: on a poll in sub-state `AwaitingScan` with the scanner sample false
and at least 5 time units past the instant the scan deadline was set, the
rejected count is incremented, the indicator register is written with the
REJECTED value 2, the conveyor is halted, the run is `stopped`, and
`current_index` does not advance (bbb.py:534-550). -/
theorem reject_on_scan_timeout (p : ProductionData) (regs : Regs)
    (now t0 : Nat) (print_ok : Bool)
    (hst : p.status = RunStatus.running)
    (hlt : p.current_index < p.quantity)
    (hqr : p.waiting_for_qr = true)
    (hw2 : p.waiting_for_proximity_2 = false)
    (hscan : regs.qr_scanner ≠ 1)
    (hss : p.sensor_check_start = some t0)
    (h5 : t0 + 5 ≤ now) :
    (check_production_status p regs now print_ok none).prod.rejected_boxes
        = p.rejected_boxes + 1 ∧
    (check_production_status p regs now print_ok none).prod.status
        = RunStatus.stopped ∧
    (check_production_status p regs now print_ok none).prod.current_index
        = p.current_index ∧
    (check_production_status p regs now print_ok none).regs.box_status_indicator
        = 2 ∧
    (check_production_status p regs now print_ok none).regs.conveyor_control
        = 0 := by
  have hqs : (regs.qr_scanner == 1) = false := by simp [hscan]
  rw [check_running_awaiting_scan p regs now print_ok hst hlt hqr,
    sensor_step_awaiting_scan _ _ _ _ _ _ _ _ _ _ hqr hw2, hqs,
    scan_step_reject _ _ _ _ _ _ _ t0 (by simp [hqr]) (by simp [hss])
      (by omega)]
  simp

/-- C2 witness: a concrete timed-out scan. -/
theorem reject_on_scan_timeout_witness :
    (check_production_status
        ⟨RunStatus.running, 1, [10], 0, 0, 0, false, false, true, false, some 2⟩
        ⟨1, 0, 0, 0, 0, 0, 0⟩ 9 true none).prod.rejected_boxes = 0 + 1 ∧
    (check_production_status
        ⟨RunStatus.running, 1, [10], 0, 0, 0, false, false, true, false, some 2⟩
        ⟨1, 0, 0, 0, 0, 0, 0⟩ 9 true none).prod.status = RunStatus.stopped ∧
    (check_production_status
        ⟨RunStatus.running, 1, [10], 0, 0, 0, false, false, true, false, some 2⟩
        ⟨1, 0, 0, 0, 0, 0, 0⟩ 9 true none).prod.current_index = 0 ∧
    (check_production_status
        ⟨RunStatus.running, 1, [10], 0, 0, 0, false, false, true, false, some 2⟩
        ⟨1, 0, 0, 0, 0, 0, 0⟩ 9 true none).regs.box_status_indicator = 2 ∧
    (check_production_status
        ⟨RunStatus.running, 1, [10], 0, 0, 0, false, false, true, false, some 2⟩
        ⟨1, 0, 0, 0, 0, 0, 0⟩ 9 true none).regs.conveyor_control = 0 :=
  reject_on_scan_timeout _ _ 9 2 true rfl (by decide) rfl rfl (by decide)
    rfl (by decide)

/-! ### C4 -/

/-- C4: within one tick in `AwaitingScan`, scan success is evaluated before
timeout expiry (bbb.py:500 is tested before the `elapsed >= 5` branch at
534): with the scanner sample true the box is accepted — accepted count
incremented, `current_index` advanced — even when at least 5 units have
already elapsed, and nothing is rejected. -/
theorem scan_success_beats_timeout (p : ProductionData) (regs : Regs)
    (now t0 : Nat) (print_ok : Bool)
    (hst : p.status = RunStatus.running)
    (hlt : p.current_index < p.quantity)
    (hqr : p.waiting_for_qr = true)
    (hw2 : p.waiting_for_proximity_2 = false)
    (hscan : regs.qr_scanner = 1)
    (hss : p.sensor_check_start = some t0)
    (h5 : t0 + 5 ≤ now) :
    (check_production_status p regs now print_ok none).prod.accepted_boxes
        = regs.accepted_boxes + 1 ∧
    (check_production_status p regs now print_ok none).prod.current_index
        = p.current_index + 1 ∧
    (check_production_status p regs now print_ok none).prod.status
        = RunStatus.running ∧
    (check_production_status p regs now print_ok none).prod.rejected_boxes
        = p.rejected_boxes := by
  have hqs : (regs.qr_scanner == 1) = true := by simp [hscan]
  rw [check_running_awaiting_scan p regs now print_ok hst hlt hqr,
    sensor_step_awaiting_scan _ _ _ _ _ _ _ _ _ _ hqr hw2, hqs,
    scan_step_accept _ _ _ _ _ _ now t0 (by simp [hqr]) (by simp [hss])]
  simp [accept_finish_prod, hst]

/-- C4 witness: a concrete scan arriving 7 units after the deadline was
set, still accepted. -/
theorem scan_success_beats_timeout_witness :
    (check_production_status
        ⟨RunStatus.running, 2, [10, 11], 0, 0, 0, false, false, true, false,
          some 2⟩ ⟨1, 0, 0, 1, 0, 0, 0⟩ 9 true none).prod.accepted_boxes
        = 0 + 1 ∧
    (check_production_status
        ⟨RunStatus.running, 2, [10, 11], 0, 0, 0, false, false, true, false,
          some 2⟩ ⟨1, 0, 0, 1, 0, 0, 0⟩ 9 true none).prod.current_index
        = 0 + 1 ∧
    (check_production_status
        ⟨RunStatus.running, 2, [10, 11], 0, 0, 0, false, false, true, false,
          some 2⟩ ⟨1, 0, 0, 1, 0, 0, 0⟩ 9 true none).prod.status
        = RunStatus.running ∧
    (check_production_status
        ⟨RunStatus.running, 2, [10, 11], 0, 0, 0, false, false, true, false,
          some 2⟩ ⟨1, 0, 0, 1, 0, 0, 0⟩ 9 true none).prod.rejected_boxes
        = 0 :=
  scan_success_beats_timeout _ _ 9 2 true rfl (by decide) rfl rfl rfl rfl
    (by decide)

/-! ### C10 -/

/-- C10: the poll that accepts the final box advances `current_index` to
the quantity, then the response snapshot indexes `qr_codes` at the new
index — one past the end of the list (bbb.py:529) — so that poll reports
the 500 error even though the acceptance was persisted at bbb.py:525, and
completion is only detected by the next poll (bbb.py:439-457). -/
theorem final_accept_out_of_bounds (p : ProductionData) (regs : Regs)
    (now t0 : Nat) (print_ok : Bool)
    (hst : p.status = RunStatus.running)
    (hq : p.current_index + 1 = p.quantity)
    (hlen : p.qr_codes.length = p.quantity)
    (hqr : p.waiting_for_qr = true)
    (hw2 : p.waiting_for_proximity_2 = false)
    (hscan : regs.qr_scanner = 1)
    (hss : p.sensor_check_start = some t0) :
    (check_production_status p regs now print_ok none).resp
        = RespStatus.error ∧
    (check_production_status p regs now print_ok none).prod.current_index
        = p.quantity ∧
    (check_production_status p regs now print_ok none).prod.accepted_boxes
        = regs.accepted_boxes + 1 ∧
    (check_production_status p regs now print_ok none).prod.status
        = RunStatus.running ∧
    (check_production_status
        (check_production_status p regs now print_ok none).prod
        (check_production_status p regs now print_ok none).regs
        now print_ok none).prod.status = RunStatus.completed ∧
    (check_production_status
        (check_production_status p regs now print_ok none).prod
        (check_production_status p regs now print_ok none).regs
        now print_ok none).resp = RespStatus.completed := by
  have hlt : p.current_index < p.quantity := by omega
  have hqs : (regs.qr_scanner == 1) = true := by simp [hscan]
  rw [check_running_awaiting_scan p regs now print_ok hst hlt hqr,
    sensor_step_awaiting_scan _ _ _ _ _ _ _ _ _ _ hqr hw2, hqs,
    scan_step_accept _ _ _ _ _ _ now t0 (by simp [hqr]) (by simp [hss]),
    accept_finish_oob _ _ _ _ (by simp; omega)]
  simp only [abort_result, if_true]
  refine ⟨by simp, by simp [hq], by simp, by simp [hst], ?_, ?_⟩ <;>
    rw [check_completion _ _ now print_ok (by simp [hst]) (by simp; omega)] <;>
    simp

/-- C10 witness: quantity-1 run, final box accepted. -/
theorem final_accept_out_of_bounds_witness :
    (check_production_status
        ⟨RunStatus.running, 1, [10], 0, 0, 0, false, false, true, false,
          some 0⟩ ⟨5, 0, 0, 1, 0, 0, 0⟩ 1 true none).resp
        = RespStatus.error ∧
    (check_production_status
        ⟨RunStatus.running, 1, [10], 0, 0, 0, false, false, true, false,
          some 0⟩ ⟨5, 0, 0, 1, 0, 0, 0⟩ 1 true none).prod.current_index = 1 ∧
    (check_production_status
        ⟨RunStatus.running, 1, [10], 0, 0, 0, false, false, true, false,
          some 0⟩ ⟨5, 0, 0, 1, 0, 0, 0⟩ 1 true none).prod.accepted_boxes
        = 0 + 1 ∧
    (check_production_status
        ⟨RunStatus.running, 1, [10], 0, 0, 0, false, false, true, false,
          some 0⟩ ⟨5, 0, 0, 1, 0, 0, 0⟩ 1 true none).prod.status
        = RunStatus.running ∧
    (check_production_status
        (check_production_status
          ⟨RunStatus.running, 1, [10], 0, 0, 0, false, false, true, false,
            some 0⟩ ⟨5, 0, 0, 1, 0, 0, 0⟩ 1 true none).prod
        (check_production_status
          ⟨RunStatus.running, 1, [10], 0, 0, 0, false, false, true, false,
            some 0⟩ ⟨5, 0, 0, 1, 0, 0, 0⟩ 1 true none).regs
        1 true none).prod.status = RunStatus.completed ∧
    (check_production_status
        (check_production_status
          ⟨RunStatus.running, 1, [10], 0, 0, 0, false, false, true, false,
            some 0⟩ ⟨5, 0, 0, 1, 0, 0, 0⟩ 1 true none).prod
        (check_production_status
          ⟨RunStatus.running, 1, [10], 0, 0, 0, false, false, true, false,
            some 0⟩ ⟨5, 0, 0, 1, 0, 0, 0⟩ 1 true none).regs
        1 true none).resp = RespStatus.completed :=
  final_accept_out_of_bounds _ _ 1 0 true rfl (by decide) (by decide) rfl
    rfl rfl rfl

/-- A running poll whose sensor samples are all inactive reduces to the
scan section alone. -/
theorem check_running_quiet (p : ProductionData) (regs : Regs) (now : Nat)
    (print_ok : Bool)
    (hst : p.status = RunStatus.running)
    (hnle : ¬ p.quantity ≤ p.current_index)
    (hb1 : (regs.proximity_1 == 1) = false)
    (hb2 : (regs.proximity_2 == 1) = false)
    (hb3 : (regs.qr_scanner == 1) = false) :
    check_production_status p regs now print_ok none
      = scan_step p p regs false 4 false false now none := by
  simp [check_production_status, sensor_step, hst, hnle, hb1, hb2, hb3]

/-! ### C3 -/

/-- A running run at box 0 with all sensor registers asserted. -/
def idem_p : ProductionData :=
  ⟨RunStatus.running, 3, [10, 11, 12], 0, 0, 0, true, false, false, false,
    none⟩

/-- Registers with both proximities, the scanner and the conveyor active. -/
def idem_regs : Regs := ⟨1, 1, 1, 1, 0, 0, 0⟩

/-- C3 counterexample: two consecutive polls with identical sensor samples
(Proximity1 = Proximity2 = Scanner = 1, conveyor unchanged) — bbb.py
cascades print → proximity-2 → scan inside each single tick, so the second
poll advances `current_index` again (1 to 2). -/
theorem poll_idempotence_counterexample :
    (check_production_status idem_p idem_regs 0 true none).prod.current_index
      = 1 ∧
    (check_production_status
        (check_production_status idem_p idem_regs 0 true none).prod
        { (check_production_status idem_p idem_regs 0 true none).regs with
          proximity_1 := 1, proximity_2 := 1, qr_scanner := 1 }
        0 true none).prod.current_index = 2 := by
  decide

/-- C3 amended: a poll whose sensor samples are all inactive (proximities
and scanner not 1, conveyor not the acknowledgment value 5) leaves
`run_status` and `current_index` unchanged, provided completion is not
already due and a pending scan deadline has not expired. -/
theorem quiet_poll_preserves_status_index (p : ProductionData) (regs : Regs)
    (now : Nat) (print_ok : Bool)
    (h1 : regs.proximity_1 ≠ 1)
    (h2 : regs.proximity_2 ≠ 1)
    (h3 : regs.qr_scanner ≠ 1)
    (h4 : regs.conveyor_control ≠ 5)
    (h5 : p.status = RunStatus.running → p.current_index < p.quantity)
    (h6 : ∀ t0, p.sensor_check_start = some t0 → now < t0 + 5) :
    (check_production_status p regs now print_ok none).prod.status
        = p.status ∧
    (check_production_status p regs now print_ok none).prod.current_index
        = p.current_index := by
  have hb1 : (regs.proximity_1 == 1) = false := by simp [h1]
  have hb2 : (regs.proximity_2 == 1) = false := by simp [h2]
  have hb3 : (regs.qr_scanner == 1) = false := by simp [h3]
  have hb4 : (regs.conveyor_control == 5) = false := by simp [h4]
  cases hst : p.status with
  | waiting_for_conveyor => simp [check_production_status, hst, hb4]
  | completed => simp [check_production_status, hst]
  | stopped => simp [check_production_status, hst]
  | running =>
      have hnle : ¬ p.quantity ≤ p.current_index := by
        have := h5 hst; omega
      rw [check_running_quiet p regs now print_ok hst hnle hb1 hb2 hb3]
      unfold scan_step
      cases hw : p.waiting_for_qr with
      | false => simp [hw, hst]
      | true =>
          simp only [hw, if_true]
          cases hss : p.sensor_check_start with
          | none => simp [abort_result, hst]
          | some t0 =>
              have h7 : ¬ (5 ≤ now - t0) := by
                have := h6 t0 hss; omega
              simp only [Bool.false_eq_true, if_false, h7]
              cases hco : p.qr_codes[p.current_index]? <;>
                simp [abort_result, hst]

/-- C3 amended witness: an all-quiet poll in `AwaitingScan` before the
deadline. -/
theorem quiet_poll_witness :
    (check_production_status
        ⟨RunStatus.running, 2, [10, 11], 1, 1, 0, false, false, true, false,
          some 3⟩ ⟨1, 0, 0, 0, 1, 0, 0⟩ 6 true none).prod.status
        = RunStatus.running ∧
    (check_production_status
        ⟨RunStatus.running, 2, [10, 11], 1, 1, 0, false, false, true, false,
          some 3⟩ ⟨1, 0, 0, 0, 1, 0, 0⟩ 6 true none).prod.current_index
        = 1 :=
  quiet_poll_preserves_status_index _ _ 6 true (by decide) (by decide)
    (by decide) (by decide) (fun _ => by decide)
    (fun t0 h => by simp at h; omega)

/-! ### C5 -/

/-- Prior box in `AwaitingScan` (deadline just set), overlap box arriving
at Proximity1. -/
def overlap_p : ProductionData :=
  ⟨RunStatus.running, 2, [10, 11], 0, 0, 0, false, false, true, false,
    some 0⟩

/-- Proximity1 asserted while the prior box awaits its scan. -/
def overlap_regs : Regs := ⟨1, 1, 0, 0, 0, 0, 0⟩

/-- C5 (code bug): when Proximity1 fires during `AwaitingScan`, the
`queued_box` latch is set and no print is issued — but on the subsequent
acceptance the code clears `queued_box` inside the update at bbb.py:507-512
before reading it back at bbb.py:515, so the queued-box branch is dead and
the next box re-enters `AwaitingProximity1`
(`waiting_for_proximity_1 = true`, `waiting_for_proximity_2 = false`)
instead of skipping to `AwaitingProximity2` as the code's own comments
(bbb.py:514, 520) and the claim intend. -/
theorem overlap_queued_branch_dead :
    (check_production_status overlap_p overlap_regs 1 true none).print_requested
      = false ∧
    (check_production_status overlap_p overlap_regs 1 true none).prod.queued_box
      = true ∧
    (check_production_status overlap_p overlap_regs 1 true none).prod.current_index
      = 0 ∧
    (check_production_status
        (check_production_status overlap_p overlap_regs 1 true none).prod
        { (check_production_status overlap_p overlap_regs 1 true none).regs with
          qr_scanner := 1 } 2 true none).prod.current_index = 1 ∧
    (check_production_status
        (check_production_status overlap_p overlap_regs 1 true none).prod
        { (check_production_status overlap_p overlap_regs 1 true none).regs with
          qr_scanner := 1 } 2 true none).prod.queued_box = false ∧
    (check_production_status
        (check_production_status overlap_p overlap_regs 1 true none).prod
        { (check_production_status overlap_p overlap_regs 1 true none).regs with
          qr_scanner := 1 } 2 true none).prod.waiting_for_proximity_1 = true ∧
    (check_production_status
        (check_production_status overlap_p overlap_regs 1 true none).prod
        { (check_production_status overlap_p overlap_regs 1 true none).regs with
          qr_scanner := 1 } 2 true none).prod.waiting_for_proximity_2
      = false := by
  decide

/-! ### C6 -/

/-- An in-flight run (box 1 of 3 already accepted). -/
def active_run : ProductionData :=
  ⟨RunStatus.running, 3, [10, 11, 12], 1, 1, 0, true, false, false, false,
    none⟩

/-- C6 counterexample: `start_production` never checks the session for an
active run (bbb.py:231-296 reads only the request body), so a start during
an active run succeeds and overwrites it, where the claim requires it to
fail. -/
theorem start_ignores_active_run_counterexample :
    (start_production (some active_run) ⟨1, 0, 0, 0, 1, 0, 0⟩
        ProductionType.custom 2 (fun i => 100 + i) none).ok = true ∧
    (start_production (some active_run) ⟨1, 0, 0, 0, 1, 0, 0⟩
        ProductionType.custom 2 (fun i => 100 + i) none).sess
      ≠ some active_run := by
  decide

/-- C6 amended: `start` fails with no mutation when the custom quantity is
not positive; a start while a run is active is NOT rejected — the run is
overwritten; on success exactly `quantity` codes exist atomically with the
acknowledgment, with `current_index = 0` and status waiting for the
conveyor. -/
theorem start_production_spec :
    (∀ (sess : Option ProductionData) (regs : Regs) (cq : Int)
        (gen : Nat → Nat), cq ≤ 0 →
        start_production sess regs ProductionType.custom cq gen none
          = { sess := sess, regs := regs, ok := false }) ∧
    (∀ (sess : Option ProductionData) (regs : Regs) (cq : Int)
        (gen : Nat → Nat), 0 < cq →
        (start_production sess regs ProductionType.custom cq gen none).ok
            = true ∧
        (start_production sess regs ProductionType.custom cq gen none).sess
          = some
            { status := RunStatus.waiting_for_conveyor
              quantity := cq.toNat
              qr_codes := (List.range cq.toNat).map gen
              current_index := 0
              accepted_boxes := 0
              rejected_boxes := 0
              waiting_for_proximity_1 := true
              waiting_for_proximity_2 := false
              waiting_for_qr := false
              queued_box := false
              sensor_check_start := none } ∧
        ((List.range cq.toNat).map gen).length = cq.toNat) := by
  constructor
  · intro sess regs cq gen hle
    simp [start_production, hle]
  · intro sess regs cq gen hpos
    have hnle : ¬ cq ≤ 0 := by omega
    have htn : 0 < cq.toNat := by omega
    have hc0 : ((List.range cq.toNat).map gen)[0]? = some (gen 0) := by
      simp [List.getElem?_map, List.getElem?_range, htn]
    refine ⟨?_, ?_, by simp⟩ <;> simp [start_production, hnle, hc0]

/-- C6 amended witness. -/
theorem start_production_spec_witness :
    (start_production none ⟨0, 0, 0, 0, 0, 0, 0⟩ ProductionType.custom (-1)
        (fun i => 100 + i) none
      = { sess := none, regs := ⟨0, 0, 0, 0, 0, 0, 0⟩, ok := false }) ∧
    ((start_production none ⟨0, 0, 0, 0, 0, 0, 0⟩ ProductionType.custom 2
        (fun i => 100 + i) none).ok = true ∧
      (start_production none ⟨0, 0, 0, 0, 0, 0, 0⟩ ProductionType.custom 2
        (fun i => 100 + i) none).sess
        = some
          { status := RunStatus.waiting_for_conveyor
            quantity := (2 : Int).toNat
            qr_codes := (List.range (2 : Int).toNat).map (fun i => 100 + i)
            current_index := 0
            accepted_boxes := 0
            rejected_boxes := 0
            waiting_for_proximity_1 := true
            waiting_for_proximity_2 := false
            waiting_for_qr := false
            queued_box := false
            sensor_check_start := none } ∧
      ((List.range (2 : Int).toNat).map (fun i => 100 + i)).length
        = (2 : Int).toNat) :=
  ⟨start_production_spec.1 none ⟨0, 0, 0, 0, 0, 0, 0⟩ (-1) (fun i => 100 + i)
      (by norm_num),
    start_production_spec.2 none ⟨0, 0, 0, 0, 0, 0, 0⟩ 2 (fun i => 100 + i)
      (by norm_num)⟩

/-! ### C7 -/

/-- A run whose current box is at `AwaitingProximity1`, with Proximity1
asserted. -/
def midfail_p : ProductionData :=
  ⟨RunStatus.running, 2, [10, 11], 0, 0, 0, true, false, false, false, none⟩

/-- Proximity1 asserted. -/
def midfail_regs : Regs := ⟨1, 1, 0, 0, 0, 0, 0⟩

/-- C7 counterexample: if the write clearing Proximity1 (bbb.py:473, bus
operation 4 of the poll) fails, the tick aborts with the 500 error but the
sub-state advance was already persisted by the session assignment at
bbb.py:470 — the in-memory run record after the failed tick differs from
the record before it. -/
theorem tick_midfailure_mutates_counterexample :
    (check_production_status midfail_p midfail_regs 0 true (some 4)).resp
      = RespStatus.error ∧
    (check_production_status midfail_p midfail_regs 0 true (some 4)).prod
      ≠ midfail_p ∧
    (check_production_status midfail_p midfail_regs 0 true
        (some 4)).prod.waiting_for_proximity_2 = true := by
  decide

/-- C7 amended: a bus failure aborts the tick with the retryable 500
error; it does not roll back mutations persisted earlier in the same tick,
but a failure before the first session assignment — in particular on the
initial ConveyorControl read (bbb.py:387, bus operation 0) — leaves both
the run record and the registers untouched. -/
theorem bus_failure_initial_read_aborts (p : ProductionData) (regs : Regs)
    (now : Nat) (print_ok : Bool) :
    check_production_status p regs now print_ok (some 0)
      = { prod := p, regs := regs, resp := RespStatus.error
          print_requested := false } :=
  rfl

/-! ### C8 -/

/-- Successful restart of a stopped run (bbb.py:310-341). -/
theorem restart_success_eq (p : ProductionData) (regs : Regs) (c : Nat)
    (hst : p.status = RunStatus.stopped)
    (hlt : p.current_index < p.qr_codes.length) :
    restart_conveyor (some p) regs c none
      = { sess := some { p with
            qr_codes := p.qr_codes.set p.current_index c
            status := RunStatus.running
            waiting_for_proximity_1 := true
            waiting_for_proximity_2 := false
            waiting_for_qr := false
            sensor_check_start := none }
          regs := { regs with
            proximity_1 := 0
            proximity_2 := 0
            qr_scanner := 0
            box_status_indicator := 0
            conveyor_control := 1 }
          ok := true } := by
  have hset : (p.qr_codes.set p.current_index c)[p.current_index]?
      = some c := List.getElem?_set_eq_of_lt c hlt
  simp [restart_conveyor, hst, hlt, hset]

/-- C8: `restart_conveyor` while `stopped` replaces the current box's code
at `current_index`, clears the transient sensor and indicator registers,
resumes the conveyor, sets the run `running` at sub-state
`AwaitingProximity1`; outside `stopped` (or with no session) it is rejected
with no mutation (bbb.py:298-345). -/
theorem restart_conveyor_spec :
    (∀ (p : ProductionData) (regs : Regs) (c : Nat),
        p.status = RunStatus.stopped →
        p.current_index < p.qr_codes.length →
        restart_conveyor (some p) regs c none
          = { sess := some { p with
                qr_codes := p.qr_codes.set p.current_index c
                status := RunStatus.running
                waiting_for_proximity_1 := true
                waiting_for_proximity_2 := false
                waiting_for_qr := false
                sensor_check_start := none }
              regs := { regs with
                proximity_1 := 0
                proximity_2 := 0
                qr_scanner := 0
                box_status_indicator := 0
                conveyor_control := 1 }
              ok := true }) ∧
    (∀ (p : ProductionData) (regs : Regs) (c : Nat),
        p.status ≠ RunStatus.stopped →
        restart_conveyor (some p) regs c none
          = { sess := some p, regs := regs, ok := false }) ∧
    (∀ (regs : Regs) (c : Nat),
        restart_conveyor none regs c none
          = { sess := none, regs := regs, ok := false }) := by
  exact ⟨fun p regs c hst hlt => restart_success_eq p regs c hst hlt,
    fun p regs c hst => by simp [restart_conveyor, hst],
    fun regs c => rfl⟩

/-- C8 witness: a concrete stopped run restarted, and a running run whose
restart is rejected. -/
theorem restart_conveyor_spec_witness :
    (restart_conveyor
        (some ⟨RunStatus.stopped, 2, [10, 11], 0, 0, 1, false, false, true,
          false, some 0⟩) ⟨0, 1, 1, 1, 3, 0, 2⟩ 77 none
      = { sess := some
            { (⟨RunStatus.stopped, 2, [10, 11], 0, 0, 1, false, false, true,
              false, some 0⟩ : ProductionData) with
              qr_codes := [10, 11].set 0 77
              status := RunStatus.running
              waiting_for_proximity_1 := true
              waiting_for_proximity_2 := false
              waiting_for_qr := false
              sensor_check_start := none }
          regs := { (⟨0, 1, 1, 1, 3, 0, 2⟩ : Regs) with
            proximity_1 := 0
            proximity_2 := 0
            qr_scanner := 0
            box_status_indicator := 0
            conveyor_control := 1 }
          ok := true }) ∧
    (restart_conveyor
        (some ⟨RunStatus.running, 2, [10, 11], 0, 0, 0, true, false, false,
          false, none⟩) ⟨1, 0, 0, 0, 0, 0, 0⟩ 77 none
      = { sess := some ⟨RunStatus.running, 2, [10, 11], 0, 0, 0, true, false,
            false, false, none⟩
          regs := ⟨1, 0, 0, 0, 0, 0, 0⟩
          ok := false }) :=
  ⟨restart_conveyor_spec.1 _ _ 77 rfl (by decide),
    restart_conveyor_spec.2.1 _ _ 77 (by decide)⟩

/-! ### C9 -/

/-- A register file with every register non-default. -/
def dirty_regs : Regs := ⟨1, 1, 1, 1, 3, 1, 2⟩

/-- Default register values (what `reset_plc_memory` writes and
`start_production` establishes). -/
def default_regs : Regs := ⟨0, 0, 0, 0, 0, 0, 0⟩

/-- C9 counterexample: `reset_plc_memory` (bbb.py:139-146) never writes the
accepted-boxes register (address 400005), so after a reset that register
keeps its old value 3 and the register file is not restored to defaults. -/
theorem reset_keeps_accepted_counterexample :
    (reset_production (some active_run) dirty_regs none).ok = true ∧
    (reset_production (some active_run) dirty_regs none).regs.accepted_boxes
      = 3 ∧
    (reset_production (some active_run) dirty_regs none).regs
      ≠ default_regs := by
  decide

/-- C9 amended: `reset` succeeds in every state — with or without an
active run — discards the run, and restores every register to its default
except the accepted-boxes register, which keeps its previous value. -/
theorem reset_production_spec (sess : Option ProductionData) (regs : Regs) :
    reset_production sess regs none
      = { sess := none
          regs := { conveyor_control := 0, proximity_1 := 0,
                    proximity_2 := 0, qr_scanner := 0,
                    accepted_boxes := regs.accepted_boxes,
                    production_complete := 0, box_status_indicator := 0 }
          ok := true } :=
  rfl

/-! ### C1: counts invariant over reachable states -/

/-- The scan section when the current box is not awaiting a scan. -/
theorem scan_step_not_waiting (orig p_cur : ProductionData) (regs : Regs)
    (modified : Bool) (op : Nat) (pr qs : Bool) (now : Nat)
    (hqr : p_cur.waiting_for_qr = false) :
    scan_step orig p_cur regs modified op pr qs now none
      = { prod := p_cur, regs := regs, resp := RespStatus.running
          print_requested := pr } := by
  simp [scan_step, hqr]

/-- The scan section when no deadline was ever recorded: bbb.py:496 raises
on the missing timestamp. -/
theorem scan_step_no_deadline (orig p_cur : ProductionData) (regs : Regs)
    (modified : Bool) (op : Nat) (pr qs : Bool) (now : Nat)
    (hqr : p_cur.waiting_for_qr = true)
    (hss : p_cur.sensor_check_start = none) :
    scan_step orig p_cur regs modified op pr qs now none
      = abort_result orig p_cur modified regs pr := by
  simp [scan_step, hqr, hss]

/-- The scan section while the window is still open and no scan arrived
(bbb.py:551-558). -/
theorem scan_step_waiting (orig p_cur : ProductionData) (regs : Regs)
    (modified : Bool) (op : Nat) (pr : Bool) (now t0 : Nat)
    (hqr : p_cur.waiting_for_qr = true)
    (hss : p_cur.sensor_check_start = some t0)
    (h5 : ¬ 5 ≤ now - t0) :
    scan_step orig p_cur regs modified op pr false now none
      = (match p_cur.qr_codes[p_cur.current_index]? with
          | none => abort_result orig p_cur modified regs pr
          | some _ =>
              { prod := p_cur, regs := regs, resp := RespStatus.running
                print_requested := pr }) := by
  simp [scan_step, hqr, hss, h5]

/-- The counts invariant: the index never exceeds the quantity, the
in-session and on-bus accepted counters both track it, and a completed run
has consumed exactly its quantity. -/
def Inv (p : ProductionData) (regs : Regs) : Prop :=
  p.current_index ≤ p.quantity ∧
  p.accepted_boxes = p.current_index ∧
  regs.accepted_boxes = p.current_index ∧
  (p.status = RunStatus.completed → p.current_index = p.quantity)

theorem inv_of_fields {a b : ProductionData} {regs : Regs}
    (hq : a.quantity = b.quantity) (hi : a.current_index = b.current_index)
    (ha : a.accepted_boxes = b.accepted_boxes) (hs : a.status = b.status)
    (h : Inv b regs) : Inv a regs := by
  obtain ⟨h1, h2, h3, h4⟩ := h
  refine ⟨by omega, by omega, by omega, fun hc => ?_⟩
  rw [hs] at hc
  have := h4 hc
  omega

/-- The scan section preserves the counts invariant on a failure-free poll
of a running, incomplete box. -/
theorem scan_step_inv (orig p_cur : ProductionData) (regs : Regs)
    (modified : Bool) (op : Nat) (pr qs : Bool) (now : Nat)
    (hq : p_cur.quantity = orig.quantity)
    (hi : p_cur.current_index = orig.current_index)
    (ha : p_cur.accepted_boxes = orig.accepted_boxes)
    (hs : p_cur.status = orig.status)
    (hstat : orig.status = RunStatus.running)
    (hlt : orig.current_index < orig.quantity)
    (hinv : Inv orig regs) :
    Inv (scan_step orig p_cur regs modified op pr qs now none).prod
      (scan_step orig p_cur regs modified op pr qs now none).regs := by
  obtain ⟨h1, h2, h3, h4⟩ := hinv
  have hcur : Inv p_cur regs := inv_of_fields hq hi ha hs ⟨h1, h2, h3, h4⟩
  cases hw : p_cur.waiting_for_qr with
  | false => rw [scan_step_not_waiting _ _ _ _ _ _ _ _ hw]; exact hcur
  | true =>
      cases hss : p_cur.sensor_check_start with
      | none =>
          rw [scan_step_no_deadline _ _ _ _ _ _ _ _ hw hss]
          cases modified with
          | false =>
              simpa [abort_result] using (⟨h1, h2, h3, h4⟩ : Inv orig regs)
          | true => simpa [abort_result] using hcur
      | some t0 =>
          cases hqs : qs with
          | true =>
              rw [scan_step_accept _ _ _ _ _ _ now t0 hw hss,
                accept_finish_prod, accept_finish_regs]
              refine ⟨by simp; omega, by simp; omega, by simp; omega,
                fun hc => ?_⟩
              simp only at hc
              rw [hs, hstat] at hc
              cases hc
          | false =>
              by_cases h5 : 5 ≤ now - t0
              · rw [scan_step_reject _ _ _ _ _ _ _ t0 hw hss h5]
                refine ⟨by simp; omega, by simp; omega, by simp; omega,
                  fun hc => ?_⟩
                simp only at hc
                cases hc
              · rw [scan_step_waiting _ _ _ _ _ _ now t0 hw hss h5]
                cases hco : p_cur.qr_codes[p_cur.current_index]? with
                | none =>
                    cases modified with
                    | false =>
                        simpa [abort_result] using
                          (⟨h1, h2, h3, h4⟩ : Inv orig regs)
                    | true => simpa [abort_result] using hcur
                | some c => simpa using hcur

/-- The queued-box / proximity-2 section preserves the counts invariant. -/
theorem sensor_step_inv (orig p_cur : ProductionData) (regs : Regs)
    (modified : Bool) (op : Nat) (pr prox1 prox2 qs : Bool) (now : Nat)
    (hq : p_cur.quantity = orig.quantity)
    (hi : p_cur.current_index = orig.current_index)
    (ha : p_cur.accepted_boxes = orig.accepted_boxes)
    (hs : p_cur.status = orig.status)
    (hstat : orig.status = RunStatus.running)
    (hlt : orig.current_index < orig.quantity)
    (hinv : Inv orig regs) :
    Inv (sensor_step orig p_cur regs modified op pr prox1 prox2 qs now
        none).prod
      (sensor_step orig p_cur regs modified op pr prox1 prox2 qs now
        none).regs := by
  simp only [sensor_step, bus_fails_none, Bool.false_eq_true, if_false]
  by_cases hA : ((prox1 && p_cur.waiting_for_qr) && !p_cur.queued_box) = true
  · rw [if_pos hA]
    exact scan_step_inv _ _ _ _ _ _ _ _ (by simpa using hq)
      (by simpa using hi) (by simpa using ha) (by simpa using hs) hstat hlt
      hinv
  · rw [if_neg hA]
    by_cases hB : (p_cur.waiting_for_proximity_2 && prox2) = true
    · rw [if_pos hB]
      refine scan_step_inv _ _ _ _ _ _ _ _ (by simpa using hq)
        (by simpa using hi) (by simpa using ha) (by simpa using hs) hstat hlt
        ?_
      obtain ⟨h1, h2, h3, h4⟩ := hinv
      exact ⟨h1, h2, by simpa using h3, h4⟩
    · rw [if_neg hB]
      exact scan_step_inv _ _ _ _ _ _ _ _ hq hi ha hs hstat hlt hinv

/-- A failure-free poll preserves the counts invariant. -/
theorem check_inv (p : ProductionData) (regs : Regs) (now : Nat)
    (print_ok : Bool) (hinv : Inv p regs) :
    Inv (check_production_status p regs now print_ok none).prod
      (check_production_status p regs now print_ok none).regs := by
  obtain ⟨h1, h2, h3, h4⟩ := hinv
  cases hst : p.status with
  | waiting_for_conveyor =>
      simp only [check_production_status, hst, bus_fails_none,
        Bool.false_eq_true, if_false]
      by_cases hc : (regs.conveyor_control == 5) = true
      · rw [if_pos hc]
        cases hco : p.qr_codes[p.current_index]? with
        | none =>
            refine ⟨by simpa using h1, by simpa using h2, by simpa using h3,
              fun hcc => ?_⟩
            simp [abort_result] at hcc ⊢
        | some c =>
            refine ⟨by simpa using h1, by simpa using h2, by simpa using h3,
              fun hcc => ?_⟩
            simp at hcc
      · rw [if_neg hc]
        exact ⟨h1, h2, h3, h4⟩
  | running =>
      by_cases hge : p.quantity ≤ p.current_index
      · rw [check_completion p regs now print_ok hst hge]
        refine ⟨by simpa using h1, by simpa using h2, by simpa using h3,
          fun _ => by simp; omega⟩
      · have hlt : p.current_index < p.quantity := by omega
        simp only [check_production_status, hst, bus_fails_none,
          Bool.false_eq_true, if_false, if_neg hge]
        by_cases hpr : ((p.waiting_for_proximity_1 && (regs.proximity_1 == 1)
            && !p.waiting_for_qr) && print_ok) = true
        · rw [if_pos hpr]
          refine sensor_step_inv _ _ _ _ _ _ _ _ _ _ ?_ ?_ ?_ ?_ hst hlt ?_
          · simp
          · simp
          · simp
          · simp [hst]
          · exact ⟨h1, h2, by simpa using h3, h4⟩
        · rw [if_neg hpr]
          exact sensor_step_inv _ _ _ _ _ _ _ _ _ _ rfl rfl rfl rfl hst hlt
            ⟨h1, h2, h3, h4⟩
  | completed =>
      simp only [check_production_status, hst, bus_fails_none,
        Bool.false_eq_true, if_false]
      exact ⟨h1, h2, h3, fun _ => h4 hst⟩
  | stopped =>
      simp only [check_production_status, hst, bus_fails_none,
        Bool.false_eq_true, if_false]
      refine ⟨h1, h2, h3, fun hc => ?_⟩
      rw [hst] at hc
      cases hc

/-- A failure-free `start_production` either rejects with no mutation or
installs a fresh record of some positive quantity with a freshly reset
register file (bbb.py:282-286 end with the conveyor commanded on). -/
theorem start_production_cases (sess : Option ProductionData) (regs : Regs)
    (pt : ProductionType) (cq : Int) (gen : Nat → Nat) :
    start_production sess regs pt cq gen none
        = { sess := sess, regs := regs, ok := false } ∨
    ∃ q : Nat, 0 < q ∧
      start_production sess regs pt cq gen none
        = { sess := some
              ⟨RunStatus.waiting_for_conveyor, q, (List.range q).map gen,
                0, 0, 0, true, false, false, false, none⟩
            regs := ⟨1, 0, 0, 0, 0, 0, 0⟩
            ok := true } := by
  have hgo : ∀ q : Nat, 0 < q →
      start_production sess regs pt cq gen none
        = { sess := some
              ⟨RunStatus.waiting_for_conveyor, q, (List.range q).map gen,
                0, 0, 0, true, false, false, false, none⟩
            regs := ⟨1, 0, 0, 0, 0, 0, 0⟩
            ok := true } →
      (start_production sess regs pt cq gen none
          = { sess := sess, regs := regs, ok := false } ∨
        ∃ q : Nat, 0 < q ∧ _) :=
    fun q hq heq => Or.inr ⟨q, hq, heq⟩
  cases pt with
  | P1 =>
      refine Or.inr ⟨10, by omega, ?_⟩
      have hc0 : ((List.range 10).map gen)[0]? = some (gen 0) := by
        simp [List.getElem?_map, List.getElem?_range]
      simp [start_production, hc0]
  | P2 =>
      refine Or.inr ⟨20, by omega, ?_⟩
      have hc0 : ((List.range 20).map gen)[0]? = some (gen 0) := by
        simp [List.getElem?_map, List.getElem?_range]
      simp [start_production, hc0]
  | custom =>
      by_cases hcq : cq ≤ 0
      · exact Or.inl (by simp [start_production, hcq])
      · refine Or.inr ⟨cq.toNat, by omega, ?_⟩
        have hc0 : ((List.range cq.toNat).map gen)[0]? = some (gen 0) := by
          have : 0 < cq.toNat := by omega
          simp [List.getElem?_map, List.getElem?_range, this]
        simp [start_production, hcq, hc0]

/-- A failure-free `restart_conveyor` either rejects with no mutation or
performs the successful restart. -/
theorem restart_conveyor_cases (sess : Option ProductionData) (regs : Regs)
    (c : Nat) :
    restart_conveyor sess regs c none
        = { sess := sess, regs := regs, ok := false } ∨
    ∃ p, sess = some p ∧ p.status = RunStatus.stopped ∧
      p.current_index < p.qr_codes.length ∧
      restart_conveyor sess regs c none
        = { sess := some { p with
              qr_codes := p.qr_codes.set p.current_index c
              status := RunStatus.running
              waiting_for_proximity_1 := true
              waiting_for_proximity_2 := false
              waiting_for_qr := false
              sensor_check_start := none }
            regs := { regs with
              proximity_1 := 0
              proximity_2 := 0
              qr_scanner := 0
              box_status_indicator := 0
              conveyor_control := 1 }
            ok := true } := by
  cases sess with
  | none => exact Or.inl rfl
  | some p =>
      by_cases hst : p.status = RunStatus.stopped
      · by_cases hlt : p.current_index < p.qr_codes.length
        · exact Or.inr ⟨p, rfl, hst, hlt, restart_success_eq p regs c hst hlt⟩
        · exact Or.inl (by simp [restart_conveyor, hst, hlt])
      · exact Or.inl (by simp [restart_conveyor, hst])

/-- Every reachable state with a live run satisfies the counts
invariant. -/
theorem reach_inv {s : Option ProductionData × Regs} (h : Reach s) :
    ∀ p, s.1 = some p → Inv p s.2 := by
  induction h with
  | init regs => exact fun p hp => Option.noConfusion hp
  | step_poll p regs now print_ok h ih =>
      intro p' hp'
      have h2 := check_inv p regs now print_ok (ih p rfl)
      injection hp' with he
      exact he ▸ h2
  | step_start sess regs pt cq gen h ih =>
      intro p' hp'
      rcases start_production_cases sess regs pt cq gen with heq | ⟨q, hq, heq⟩
      · rw [heq] at hp' ⊢
        exact ih p' hp'
      · rw [heq] at hp' ⊢
        injection hp' with he
        subst he
        exact ⟨by simp, rfl, rfl, fun hc => by simp at hc⟩
  | step_restart sess regs c h ih =>
      intro p' hp'
      rcases restart_conveyor_cases sess regs c with heq | ⟨p, hpe, hst, hlt, heq⟩
      · rw [heq] at hp' ⊢
        exact ih p' hp'
      · rw [heq] at hp' ⊢
        injection hp' with he
        subst he
        obtain ⟨h1, h2, h3, h4⟩ := ih p hpe
        have h3' : regs.accepted_boxes = p.current_index := h3
        exact ⟨by simp; omega, by simp; omega, by simp; omega,
          fun hc => by simp at hc⟩
  | step_reset sess regs h ih =>
      exact fun p' hp' => Option.noConfusion hp'
  | step_env sess regs cv q1 q2 sc ind h ih =>
      intro p' hp'
      obtain ⟨h1, h2, h3, h4⟩ := ih p' hp'
      have h3' : regs.accepted_boxes = p'.current_index := h3
      exact ⟨h1, h2, by simpa using h3', h4⟩

/-- C1 amended: in the absence of bus failures, every reachable
`completed` run of quantity q has `current_index = q` and both accepted
counters equal to q; the run reached completion only through accepts
(bbb.py:507-512 is the only index advance), rejections merely stop the run
until a restart.  The failure-free scope is essential: under the
failure-admitting relation `ReachF` the unconditional claim is false — see
the counterexample below, where a failed indicator write desynchronizes
the bus counter and the run completes with accepted counters q + 1. -/
theorem completed_run_counts (p : ProductionData) (regs : Regs)
    (h : Reach (some p, regs)) (hc : p.status = RunStatus.completed) :
    p.current_index = p.quantity ∧ p.accepted_boxes = p.quantity ∧
    regs.accepted_boxes = p.quantity := by
  obtain ⟨h1, h2, h3, h4⟩ := reach_inv h p rfl
  have h3' : regs.accepted_boxes = p.current_index := h3
  have h5 := h4 hc
  exact ⟨by omega, by omega, by omega⟩

/-- The completed quantity-1 run reached in the witness derivation. -/
def wit_prod : ProductionData :=
  ⟨RunStatus.completed, 1, [100], 1, 1, 0, false, false, false, false,
    some 7⟩

/-- Its register file. -/
def wit_regs : Regs := ⟨0, 0, 0, 0, 1, 1, 1⟩

/-- C1 witness: an actual run — start of quantity 1, conveyor
acknowledgment, proximity-1 print, proximity-2, scan accept, completion
poll — reaching `completed` with both counters equal to the quantity. -/
theorem completed_run_counts_witness :
    wit_prod.current_index = wit_prod.quantity ∧
    wit_prod.accepted_boxes = wit_prod.quantity ∧
    wit_regs.accepted_boxes = wit_prod.quantity := by
  have h0 : Reach (none, (⟨0, 0, 0, 0, 0, 0, 0⟩ : Regs)) := Reach.init _
  have h1 : Reach (some ⟨RunStatus.waiting_for_conveyor, 1, [100], 0, 0, 0,
      true, false, false, false, none⟩, (⟨1, 0, 0, 0, 0, 0, 0⟩ : Regs)) :=
    Reach.step_start none ⟨0, 0, 0, 0, 0, 0, 0⟩ ProductionType.custom 1
      (fun i => 100 + i) h0
  have h2 : Reach (some ⟨RunStatus.waiting_for_conveyor, 1, [100], 0, 0, 0,
      true, false, false, false, none⟩, (⟨5, 0, 0, 0, 0, 0, 0⟩ : Regs)) :=
    Reach.step_env _ _ 5 0 0 0 0 h1
  have h3 : Reach (some ⟨RunStatus.running, 1, [100], 0, 0, 0,
      true, false, false, false, none⟩, (⟨5, 0, 0, 0, 0, 0, 0⟩ : Regs)) :=
    Reach.step_poll _ _ 0 true h2
  have h4 : Reach (some ⟨RunStatus.running, 1, [100], 0, 0, 0,
      true, false, false, false, none⟩, (⟨5, 1, 0, 0, 0, 0, 0⟩ : Regs)) :=
    Reach.step_env _ _ 5 1 0 0 0 h3
  have h5 : Reach (some ⟨RunStatus.running, 1, [100], 0, 0, 0,
      false, true, false, false, none⟩, (⟨5, 0, 0, 0, 0, 0, 0⟩ : Regs)) :=
    Reach.step_poll _ _ 0 true h4
  have h6 : Reach (some ⟨RunStatus.running, 1, [100], 0, 0, 0,
      false, true, false, false, none⟩, (⟨5, 0, 1, 0, 0, 0, 0⟩ : Regs)) :=
    Reach.step_env _ _ 5 0 1 0 0 h5
  have h7 : Reach (some ⟨RunStatus.running, 1, [100], 0, 0, 0,
      false, false, true, false, some 7⟩, (⟨5, 0, 0, 0, 0, 0, 0⟩ : Regs)) :=
    Reach.step_poll _ _ 7 true h6
  have h8 : Reach (some ⟨RunStatus.running, 1, [100], 0, 0, 0,
      false, false, true, false, some 7⟩, (⟨5, 0, 0, 1, 0, 0, 0⟩ : Regs)) :=
    Reach.step_env _ _ 5 0 0 1 0 h7
  have h9 : Reach (some ⟨RunStatus.running, 1, [100], 1, 1, 0,
      true, false, false, false, some 7⟩, (⟨5, 0, 0, 0, 1, 0, 1⟩ : Regs)) :=
    Reach.step_poll _ _ 8 true h8
  have h10 : Reach (some wit_prod, wit_regs) := Reach.step_poll _ _ 9 true h9
  exact completed_run_counts wit_prod wit_regs h10 rfl

/-- The completed quantity-2 run reached by the failure-injected
derivation below: both accepted counters read 3. -/
def fail_run_prod : ProductionData :=
  ⟨RunStatus.completed, 2, [100, 101], 2, 3, 0, false, false, false, false,
    some 2⟩

/-- Its register file: the accepted-boxes register also reads 3. -/
def fail_run_regs : Regs := ⟨0, 0, 0, 0, 3, 1, 1⟩

/-- C1 counterexample: with the program's real failure paths admitted, a
quantity-2 run reaches `completed` with accepted counters equal to 3, not
2, refuting the unconditional claim.  The derivation is an ordinary run
except for one poll in which the indicator write (bbb.py:504, bus
operation 6 of that poll) fails after the accepted-counter write
(bbb.py:503) succeeded: the 500 abort leaves the bus counter incremented
while the session record is untouched and the scanner register uncleared
(bbb.py:505 unreached), so the retry poll reads the counter back at
bbb.py:502 and records `accepted_boxes = 2` for the first box; the skew
persists to completion. -/
theorem completed_run_miscount_counterexample :
    ReachF (some fail_run_prod, fail_run_regs) ∧
    fail_run_prod.status = RunStatus.completed ∧
    0 < fail_run_prod.quantity ∧
    fail_run_prod.current_index = fail_run_prod.quantity ∧
    fail_run_prod.accepted_boxes ≠ fail_run_prod.quantity ∧
    fail_run_regs.accepted_boxes ≠ fail_run_prod.quantity := by
  refine ⟨?_, by decide, by decide, by decide, by decide, by decide⟩
  have g0 : ReachF (none, (⟨0, 0, 0, 0, 0, 0, 0⟩ : Regs)) := ReachF.init _
  have g1 : ReachF (some ⟨RunStatus.waiting_for_conveyor, 2, [100, 101],
      0, 0, 0, true, false, false, false, none⟩,
      (⟨1, 0, 0, 0, 0, 0, 0⟩ : Regs)) :=
    ReachF.step_start none ⟨0, 0, 0, 0, 0, 0, 0⟩ ProductionType.custom 2
      (fun i => 100 + i) none g0
  have g2 : ReachF (some ⟨RunStatus.waiting_for_conveyor, 2, [100, 101],
      0, 0, 0, true, false, false, false, none⟩,
      (⟨5, 0, 0, 0, 0, 0, 0⟩ : Regs)) :=
    ReachF.step_env _ _ 5 0 0 0 0 g1
  have g3 : ReachF (some ⟨RunStatus.running, 2, [100, 101],
      0, 0, 0, true, false, false, false, none⟩,
      (⟨5, 0, 0, 0, 0, 0, 0⟩ : Regs)) :=
    ReachF.step_poll _ _ 0 true none g2
  have g4 : ReachF (some ⟨RunStatus.running, 2, [100, 101],
      0, 0, 0, true, false, false, false, none⟩,
      (⟨5, 1, 0, 0, 0, 0, 0⟩ : Regs)) :=
    ReachF.step_env _ _ 5 1 0 0 0 g3
  have g5 : ReachF (some ⟨RunStatus.running, 2, [100, 101],
      0, 0, 0, false, true, false, false, none⟩,
      (⟨5, 0, 0, 0, 0, 0, 0⟩ : Regs)) :=
    ReachF.step_poll _ _ 0 true none g4
  have g6 : ReachF (some ⟨RunStatus.running, 2, [100, 101],
      0, 0, 0, false, true, false, false, none⟩,
      (⟨5, 0, 1, 0, 0, 0, 0⟩ : Regs)) :=
    ReachF.step_env _ _ 5 0 1 0 0 g5
  have g7 : ReachF (some ⟨RunStatus.running, 2, [100, 101],
      0, 0, 0, false, false, true, false, some 0⟩,
      (⟨5, 0, 0, 0, 0, 0, 0⟩ : Regs)) :=
    ReachF.step_poll _ _ 0 true none g6
  have g8 : ReachF (some ⟨RunStatus.running, 2, [100, 101],
      0, 0, 0, false, false, true, false, some 0⟩,
      (⟨5, 0, 0, 1, 0, 0, 0⟩ : Regs)) :=
    ReachF.step_env _ _ 5 0 0 1 0 g7
  have g9 : ReachF (some ⟨RunStatus.running, 2, [100, 101],
      0, 0, 0, false, false, true, false, some 0⟩,
      (⟨5, 0, 0, 1, 1, 0, 0⟩ : Regs)) :=
    ReachF.step_poll _ _ 1 true (some 6) g8
  have g10 : ReachF (some ⟨RunStatus.running, 2, [100, 101],
      1, 2, 0, true, false, false, false, some 0⟩,
      (⟨5, 0, 0, 0, 2, 0, 1⟩ : Regs)) :=
    ReachF.step_poll _ _ 1 true none g9
  have g11 : ReachF (some ⟨RunStatus.running, 2, [100, 101],
      1, 2, 0, true, false, false, false, some 0⟩,
      (⟨5, 1, 0, 0, 2, 0, 0⟩ : Regs)) :=
    ReachF.step_env _ _ 5 1 0 0 0 g10
  have g12 : ReachF (some ⟨RunStatus.running, 2, [100, 101],
      1, 2, 0, false, true, false, false, some 0⟩,
      (⟨5, 0, 0, 0, 2, 0, 0⟩ : Regs)) :=
    ReachF.step_poll _ _ 2 true none g11
  have g13 : ReachF (some ⟨RunStatus.running, 2, [100, 101],
      1, 2, 0, false, true, false, false, some 0⟩,
      (⟨5, 0, 1, 0, 2, 0, 0⟩ : Regs)) :=
    ReachF.step_env _ _ 5 0 1 0 0 g12
  have g14 : ReachF (some ⟨RunStatus.running, 2, [100, 101],
      1, 2, 0, false, false, true, false, some 2⟩,
      (⟨5, 0, 0, 0, 2, 0, 0⟩ : Regs)) :=
    ReachF.step_poll _ _ 2 true none g13
  have g15 : ReachF (some ⟨RunStatus.running, 2, [100, 101],
      1, 2, 0, false, false, true, false, some 2⟩,
      (⟨5, 0, 0, 1, 2, 0, 0⟩ : Regs)) :=
    ReachF.step_env _ _ 5 0 0 1 0 g14
  have g16 : ReachF (some ⟨RunStatus.running, 2, [100, 101],
      2, 3, 0, true, false, false, false, some 2⟩,
      (⟨5, 0, 0, 0, 3, 0, 1⟩ : Regs)) :=
    ReachF.step_poll _ _ 3 true none g15
  exact ReachF.step_poll _ _ 4 true none g16

end Conveyor
